import Mathlib

/-!
# Verification of the Strategy Execution & Risk-Managed Position Engine

Shallow embedding of `src/ai-engine/src/strategy_execution.py`.

Python floats are modelled as exact rationals (`ℚ`); every numeric literal
appearing in the source is exactly representable.  Python dictionaries
(`self.positions : Dict[str, Position]`) are modelled as association lists
with insertion-order semantics.  The awaited external effects
(`execute_signal`, `_get_current_price`) are passed in as explicit
parameters (a `Bool` success flag, a `ℚ` price).
-/

namespace StrategyExecution

/-- `StrategyType` enum of the source. -/
inductive StrategyType where
  | funding_rate_arbitrage
  | market_making
  | copy_trading
  | portfolio_rebalancing
  | yield_farming
deriving DecidableEq, Repr

/-- `RiskLevel` enum of the source (values 1 / 5 / 10). -/
inductive RiskLevel where
  | conservative
  | moderate
  | aggressive
deriving DecidableEq, Repr

/-- `StrategyParameters` dataclass. -/
structure StrategyParameters where
  strategy_type : StrategyType
  risk_level : RiskLevel
  max_position_size : ℚ
  stop_loss_pct : ℚ
  take_profit_pct : ℚ
  max_drawdown_pct : ℚ
  execution_frequency_seconds : ℕ
  enabled_protocols : List String
deriving DecidableEq, Repr

/-- `TradeSignal` dataclass.  `action` is one of "BUY", "SELL", "HOLD" as a
plain string, exactly as in the source. -/
structure TradeSignal where
  action : String
  asset : String
  amount : ℚ
  price : ℚ
  confidence : ℚ
  reasoning : String
  risk_score : ℚ
  stop_loss_price : Option ℚ := none
  take_profit_price : Option ℚ := none
deriving DecidableEq, Repr

/-- `Position` dataclass.  The `entry_time : datetime` field is not modelled
(no claim depends on wall-clock time). -/
structure Position where
  asset : String
  side : String
  entry_price : ℚ
  amount : ℚ
  stop_loss_price : Option ℚ := none
  take_profit_price : Option ℚ := none
  unrealized_pnl : ℚ := 0
deriving DecidableEq, Repr

/-- `PerformanceMetrics` dataclass with the source's zero defaults. -/
structure PerformanceMetrics where
  total_trades : ℕ := 0
  successful_trades : ℕ := 0
  total_pnl : ℚ := 0
  win_rate : ℚ := 0
  sharpe_ratio : ℚ := 0
  max_drawdown : ℚ := 0
  current_drawdown : ℚ := 0
  open_positions : ℕ := 0
  total_volume : ℚ := 0
deriving DecidableEq, Repr

/-- Mutable state of `RiskManager`. -/
structure RiskManager where
  max_drawdown_pct : ℚ
  peak_balance : ℚ := 0
  current_balance : ℚ := 0
  current_drawdown : ℚ := 0
deriving DecidableEq, Repr

/-- A fresh `RiskManager(max_drawdown_pct=0.1)` as built by the default
constructor argument. -/
def RiskManager.fresh : RiskManager :=
  { max_drawdown_pct := 1/10 }

/-! ## Python dict as an association list (insertion order preserved) -/

/-- `d[k]` lookup returning `none` when absent (`k in d` is `isSome`). -/
def dict_lookup (k : String) : List (String × Position) → Option Position
  | [] => none
  | (k2, v) :: rest => if k2 = k then some v else dict_lookup k rest

/-- `d[k] = v`: overwrite in place when the key exists, append otherwise
(CPython 3.7+ semantics). -/
def dict_insert (k : String) (v : Position) : List (String × Position) → List (String × Position)
  | [] => [(k, v)]
  | (k2, v2) :: rest =>
      if k2 = k then (k2, v) :: rest else (k2, v2) :: dict_insert k v rest

/-- `del d[k]` (no-op when the key is absent; the source only deletes
present keys). -/
def dict_erase (k : String) : List (String × Position) → List (String × Position)
  | [] => []
  | (k2, v2) :: rest => if k2 = k then rest else (k2, v2) :: dict_erase k rest

/-! ## RiskManager methods -/

/-- Python substring test `key in hay` on lists of characters. -/
def sub_list (key : List Char) : List Char → Bool
  | [] => key.isEmpty
  | c :: rest => key.isPrefixOf (c :: rest) || sub_list key rest

/-- `s.upper()` modelled character by character (the source's asset strings
are ASCII). -/
def str_upper (s : String) : String :=
  String.mk (s.data.map Char.toUpper)

/-- Python `key in s` for strings. -/
def str_contains (hay key : String) : Bool :=
  sub_list key.data hay.data

/-- `RiskManager._get_asset_volatility`: first match wins, in the insertion
order of the source's `volatility_map`; default 0.30. -/
def get_asset_volatility (asset : String) : ℚ :=
  if str_contains (str_upper asset) "BTC" then 15/100
  else if str_contains (str_upper asset) "ETH" then 20/100
  else if str_contains (str_upper asset) "APT" then 25/100
  else if str_contains (str_upper asset) "USDT" then 1/100
  else if str_contains (str_upper asset) "USDC" then 1/100
  else 30/100

/-- `volatility_adjustment = max(0.1, 1.0 - (volatility * 2))`. -/
def volatility_adjustment (asset : String) : ℚ :=
  max (1/10) (1 - get_asset_volatility asset * 2)

/-- `drawdown_adjustment = max(0.5, 1.0 - (self.current_drawdown * 2))`. -/
def drawdown_adjustment (current_drawdown : ℚ) : ℚ :=
  max (1/2) (1 - current_drawdown * 2)

/-- `RiskManager._calculate_position_limit`. -/
def calculate_position_limit (rm : RiskManager) (asset : String) : ℚ :=
  (10000 : ℚ) * volatility_adjustment asset * drawdown_adjustment rm.current_drawdown

/-- The fourth check of `assess_risk`: the asset already carries a position
and the BUY/SELL signal's implied side matches its side. -/
def same_direction_blocked (signal : TradeSignal)
    (current_positions : List (String × Position)) : Bool :=
  match dict_lookup signal.asset current_positions with
  | some existing_position =>
      (signal.action == "BUY" || signal.action == "SELL") &&
      existing_position.side == (if signal.action == "BUY" then "LONG" else "SHORT")
  | none => false

/-- `RiskManager.assess_risk`: the source's sequence of early-return checks. -/
def assess_risk (rm : RiskManager) (signal : TradeSignal)
    (current_positions : List (String × Position)) : Bool :=
  if signal.amount > calculate_position_limit rm signal.asset then false
  else if rm.current_drawdown > rm.max_drawdown_pct then false
  else if signal.risk_score > 8/10 then false
  else if same_direction_blocked signal current_positions then false
  else if current_positions.length ≥ 10 &&
          (signal.action == "BUY" || signal.action == "SELL") then false
  else true

/-- `RiskManager.update_balance`. -/
def update_balance (rm : RiskManager) (new_balance : ℚ) : RiskManager :=
  let rm1 : RiskManager := { rm with current_balance := new_balance }
  let rm2 : RiskManager :=
    if new_balance > rm1.peak_balance then { rm1 with peak_balance := new_balance } else rm1
  if rm2.peak_balance > 0 then
    { rm2 with current_drawdown := (rm2.peak_balance - new_balance) / rm2.peak_balance }
  else rm2

/-! ## BaseStrategy state and methods -/

/-- The mutable state of a `BaseStrategy` instance (`self.params`,
`self.risk_manager`, `self.performance`, `self.positions`). -/
structure StrategyState where
  params : StrategyParameters
  risk_manager : RiskManager
  performance : PerformanceMetrics
  positions : List (String × Position)
deriving DecidableEq, Repr

/-- `BaseStrategy.__init__`. -/
def init_strategy (params : StrategyParameters) : StrategyState :=
  { params := params
    risk_manager := { max_drawdown_pct := params.max_drawdown_pct }
    performance := {}
    positions := [] }

/-- `BaseStrategy._calculate_stop_loss_price`. -/
def calculate_stop_loss_price (params : StrategyParameters)
    (entry_price : ℚ) (side : String) : ℚ :=
  let stop_loss_pct := params.stop_loss_pct / 100
  if side == "LONG" then entry_price * (1 - stop_loss_pct)
  else entry_price * (1 + stop_loss_pct)

/-- `BaseStrategy._calculate_take_profit_price`. -/
def calculate_take_profit_price (params : StrategyParameters)
    (entry_price : ℚ) (side : String) : ℚ :=
  let take_profit_pct := params.take_profit_pct / 100
  if side == "LONG" then entry_price * (1 + take_profit_pct)
  else entry_price * (1 - take_profit_pct)

/-- Python truthiness of an `Optional[float]`: `None` and `0.0` are falsy. -/
def truthy : Option ℚ → Bool
  | none => false
  | some x => x != 0

/-- `BaseStrategy._open_position`. -/
def open_position (signal : TradeSignal) (st : StrategyState) : StrategyState :=
  let side := if signal.action == "BUY" then "LONG" else "SHORT"
  let stop_loss_price :=
    if !truthy signal.stop_loss_price && st.params.stop_loss_pct > 0 then
      some (calculate_stop_loss_price st.params signal.price side)
    else signal.stop_loss_price
  let take_profit_price :=
    if !truthy signal.take_profit_price && st.params.take_profit_pct > 0 then
      some (calculate_take_profit_price st.params signal.price side)
    else signal.take_profit_price
  let position : Position :=
    { asset := signal.asset
      side := side
      entry_price := signal.price
      amount := signal.amount
      stop_loss_price := stop_loss_price
      take_profit_price := take_profit_price }
  let positions := dict_insert signal.asset position st.positions
  { st with
    positions := positions
    performance :=
      { st.performance with
        open_positions := positions.length
        total_volume := st.performance.total_volume + signal.amount * signal.price } }

/-- `BaseStrategy._update_performance`, the state update the control loop
applies right after `execute_signal` returns (`success` is that return
value). -/
def update_performance (success : Bool) (signal : TradeSignal)
    (st : StrategyState) : StrategyState :=
  if success then
    let st1 :=
      if (signal.action == "BUY" || signal.action == "SELL") &&
         (dict_lookup signal.asset st.positions).isNone then
        open_position signal st
      else st
    if st1.performance.total_trades > 0 then
      { st1 with
        performance :=
          { st1.performance with
            win_rate :=
              (st1.performance.successful_trades : ℚ) / st1.performance.total_trades } }
    else st1
  else st

/-- `BaseStrategy._close_position`.  `success` is the return value of the
awaited `execute_signal(close_signal)` call and `current_price` the value
returned by `_get_current_price(asset)`. -/
def close_position (success : Bool) (current_price : ℚ) (asset : String)
    (position : Position) (st : StrategyState) : StrategyState :=
  if success then
    let pnl :=
      if position.side == "LONG" then
        (current_price - position.entry_price) * position.amount
      else (position.entry_price - current_price) * position.amount
    let positions := dict_erase asset st.positions
    { st with
      positions := positions
      performance :=
        { st.performance with
          total_pnl := st.performance.total_pnl + pnl
          total_trades := st.performance.total_trades + 1
          successful_trades :=
            st.performance.successful_trades + (if pnl > 0 then 1 else 0)
          open_positions := positions.length } }
  else st

/-- `BaseStrategy._update_position_pnl`: mark-to-market of every open
position at the tick's price. -/
def update_position_pnl (current_price : ℚ) (st : StrategyState) : StrategyState :=
  { st with
    positions := st.positions.map fun ap =>
      (ap.1,
       { ap.2 with
         unrealized_pnl :=
           if ap.2.side == "LONG" then
             (current_price - ap.2.entry_price) * ap.2.amount
           else (ap.2.entry_price - current_price) * ap.2.amount }) }

/-! ## Spec-side definitions (for refinement comparison)

These transcribe the wording of the specification, not the source; they are
compared with the source-derived `assess_risk` above. -/

/-- Modelled from the spec: the side a BUY/SELL signal implies
(BUY→LONG, SELL→SHORT); other actions imply no side. -/
def spec_implied_side (action : String) : Option String :=
  if action = "BUY" then some "LONG"
  else if action = "SELL" then some "SHORT"
  else none

/-- Modelled from the spec: the rejection disjunction exactly as claim C2
states it — in particular its fifth disjunct requires that the signal
*would open a new position* (BUY/SELL on an asset with no open position). -/
def claimed_reject (rm : RiskManager) (signal : TradeSignal)
    (ps : List (String × Position)) : Prop :=
  signal.amount > calculate_position_limit rm signal.asset ∨
  rm.current_drawdown > rm.max_drawdown_pct ∨
  signal.risk_score > 8/10 ∨
  (∃ p, dict_lookup signal.asset ps = some p ∧
        spec_implied_side signal.action = some p.side) ∨
  (ps.length ≥ 10 ∧ (signal.action = "BUY" ∨ signal.action = "SELL") ∧
   dict_lookup signal.asset ps = none)

/-- The amended rejection disjunction: the fifth disjunct fires for *every*
BUY/SELL signal once ten positions are open, whether or not it would open a
new position. -/
def claimed_reject_amended (rm : RiskManager) (signal : TradeSignal)
    (ps : List (String × Position)) : Prop :=
  signal.amount > calculate_position_limit rm signal.asset ∨
  rm.current_drawdown > rm.max_drawdown_pct ∨
  signal.risk_score > 8/10 ∨
  (∃ p, dict_lookup signal.asset ps = some p ∧
        spec_implied_side signal.action = some p.side) ∨
  (ps.length ≥ 10 ∧ (signal.action = "BUY" ∨ signal.action = "SELL"))

/-! ## Concrete fixtures used by the claims -/

/-- A typical parameter set: stop-loss 2 %, take-profit 5 %,
max drawdown 10 %. -/
def test_params : StrategyParameters :=
  { strategy_type := .funding_rate_arbitrage
    risk_level := .moderate
    max_position_size := 10000
    stop_loss_pct := 2
    take_profit_pct := 5
    max_drawdown_pct := 1/10
    execution_frequency_seconds := 60
    enabled_protocols := [] }

/-- A SHORT position of unit size in asset `a`. -/
def short_position (a : String) : Position :=
  { asset := a, side := "SHORT", entry_price := 1, amount := 1 }

/-- Ten open SHORT positions, hitting the position cap. -/
def psC2 : List (String × Position) :=
  [("A0", short_position "A0"), ("A1", short_position "A1"),
   ("A2", short_position "A2"), ("A3", short_position "A3"),
   ("A4", short_position "A4"), ("A5", short_position "A5"),
   ("A6", short_position "A6"), ("A7", short_position "A7"),
   ("A8", short_position "A8"), ("A9", short_position "A9")]

/-- An opposite-direction (closing) BUY against the open SHORT in `A0`;
passes the size, drawdown, risk-score and direction checks. -/
def sigC2 : TradeSignal :=
  { action := "BUY", asset := "A0", amount := 100, price := 1,
    confidence := 1, reasoning := "", risk_score := 0 }

/-- A HOLD signal whose risk score exceeds the fixed 0.8 threshold. -/
def holdC3 : TradeSignal :=
  { action := "HOLD", asset := "BTC", amount := 0, price := 100,
    confidence := 1, reasoning := "", risk_score := 9/10 }

/-- A LONG position in BTC: entry 100, amount 5. -/
def posC1 : Position :=
  { asset := "BTC", side := "LONG", entry_price := 100, amount := 5 }

/-- Strategy state holding the single open LONG `posC1`. -/
def stC1 : StrategyState :=
  { params := test_params
    risk_manager := RiskManager.fresh
    performance := {}
    positions := [("BTC", posC1)] }

/-- The opposite-direction SELL against `posC1`. -/
def sellC1 : TradeSignal :=
  { action := "SELL", asset := "BTC", amount := 5, price := 100,
    confidence := 1, reasoning := "", risk_score := 0 }

/-- A LONG position in BTC: entry 50, amount 2; closing it at the source's
mock price 100 realizes a profit of 100. -/
def posC4 : Position :=
  { asset := "BTC", side := "LONG", entry_price := 50, amount := 2 }

/-- Fresh strategy state holding only `posC4`. -/
def stC4 : StrategyState :=
  { params := test_params
    risk_manager := RiskManager.fresh
    performance := {}
    positions := [("BTC", posC4)] }

/-- The spec's mark-to-market example position: LONG, entry 50000,
amount 1000. -/
def posC5 : Position :=
  { asset := "BTC", side := "LONG", entry_price := 50000, amount := 1000 }

/-- Strategy state holding only `posC5`. -/
def stC5 : StrategyState :=
  { params := test_params
    risk_manager := RiskManager.fresh
    performance := {}
    positions := [("BTC", posC5)] }

/-- A BUY at 50000 carrying no stop-loss/take-profit prices. -/
def buyC8 : TradeSignal :=
  { action := "BUY", asset := "BTC", amount := 100, price := 50000,
    confidence := 1, reasoning := "", risk_score := 0 }

/-- A SELL at 50000 carrying no stop-loss/take-profit prices. -/
def sellC8 : TradeSignal :=
  { action := "SELL", asset := "ETH", amount := 100, price := 50000,
    confidence := 1, reasoning := "", risk_score := 0 }

/-- The empty strategy state built by `BaseStrategy.__init__` on
`test_params`. -/
def stC8 : StrategyState := init_strategy test_params

/-! ## Claims -/

/-- C5 (counterexample): marking the LONG position entry 50000 / amount 1000
to market at price 51000 does *not* set its unrealized PnL to 1000: the
source computes `(price - entry) * amount`, which is 1000000 here. -/
theorem C5_counterexample :
    (update_position_pnl 51000 stC5).positions.map (fun ap => ap.2.unrealized_pnl)
      ≠ [1000] := by
  norm_num [update_position_pnl, stC5, posC5]

/-- C5 (amended): marking the LONG position entry 50000 / amount 1000 to
market at price 51000 sets its unrealized PnL to exactly 1000000. -/
theorem C5_mark_to_market :
    (update_position_pnl 51000 stC5).positions.map (fun ap => ap.2.unrealized_pnl)
      = [1000000] := by
  norm_num [update_position_pnl, stC5, posC5]

/-- C6: a failed execution (`execute_signal` returned false) leaves the
strategy state unchanged, both on the new-signal path
(`_update_performance`) and on the position-close path
(`_close_position`): no position is created or removed and every
performance counter keeps its prior value. -/
theorem C6_failed_execution_identity :
    ∀ (st : StrategyState) (signal : TradeSignal) (price : ℚ)
      (asset : String) (p : Position),
      update_performance false signal st = st ∧
      close_position false price asset p st = st := by
  intro st signal price asset p
  exact ⟨rfl, rfl⟩

/-- C4 (code evaluated at the failing input): closing the LONG position
entry 50 / amount 2 successfully at price 100 (the source's mock price)
realizes PnL 100 and bumps the trade counters to 1/1, yet `win_rate` keeps
its stale value 0 instead of the claimed 1/1 — `_close_position` never
recomputes it. -/
theorem C4_win_rate_stale_at_close :
    (close_position true 100 "BTC" posC4 stC4).performance.total_trades = 1 ∧
    (close_position true 100 "BTC" posC4 stC4).performance.successful_trades = 1 ∧
    (close_position true 100 "BTC" posC4 stC4).performance.total_pnl = 100 ∧
    (close_position true 100 "BTC" posC4 stC4).performance.win_rate = 0 ∧
    (close_position true 100 "BTC" posC4 stC4).performance.win_rate ≠ 1 / 1 := by
  norm_num +decide [close_position, stC4, posC4, dict_erase]

/-- C1 (code evaluated at the failing input): the opposite-direction SELL
against the open LONG in BTC is approved by the risk gate, yet the tick's
state update after a successful execution is the identity: the position is
still in the map and no PnL is realized. -/
theorem C1_opposite_signal_not_closed :
    assess_risk stC1.risk_manager sellC1 stC1.positions = true ∧
    update_performance true sellC1 stC1 = stC1 ∧
    (dict_lookup "BTC"
        (update_position_pnl 100 (update_performance true sellC1 stC1)).positions).isSome
      = true ∧
    (update_performance true sellC1 stC1).performance.total_pnl = 0 ∧
    (update_performance true sellC1 stC1).performance.total_trades = 0 := by
  refine ⟨?_, rfl, rfl, rfl, rfl⟩
  norm_num +decide [assess_risk, stC1, sellC1, posC1, RiskManager.fresh,
    calculate_position_limit, volatility_adjustment, drawdown_adjustment,
    get_asset_volatility, same_direction_blocked, dict_lookup]

/-- C3 (counterexample): a HOLD signal is not always approved — the size,
drawdown and risk-score checks run before any action-specific logic, so a
HOLD signal with risk score 0.9 is rejected even on a fresh manager with no
open positions. -/
theorem C3_counterexample :
    assess_risk RiskManager.fresh holdC3 [] = false := by
  norm_num +decide [assess_risk, holdC3, RiskManager.fresh,
    calculate_position_limit, volatility_adjustment, drawdown_adjustment,
    get_asset_volatility, same_direction_blocked, dict_lookup]

/-- C3 (amended): a HOLD signal is never rejected by the direction check or
the position-cap check; it is approved whenever its amount does not exceed
the position limit, the drawdown is within bounds and its risk score is at
most 0.8 — for any open-position map whatsoever. -/
theorem C3_hold_amended :
    ∀ (rm : RiskManager) (signal : TradeSignal) (ps : List (String × Position)),
      signal.action = "HOLD" →
      signal.amount ≤ calculate_position_limit rm signal.asset →
      rm.current_drawdown ≤ rm.max_drawdown_pct →
      signal.risk_score ≤ 8/10 →
      assess_risk rm signal ps = true := by
  intro rm signal ps hact hamt hdd hrs
  unfold assess_risk
  rw [if_neg (not_lt.mpr hamt), if_neg (not_lt.mpr hdd), if_neg (not_lt.mpr hrs)]
  have hblocked : same_direction_blocked signal ps = false := by
    unfold same_direction_blocked
    cases dict_lookup signal.asset ps with
    | none => rfl
    | some p => simp [hact]
  rw [hblocked]
  simp [hact]

/-- C3 witness: the amended statement at a concrete input — a HOLD signal
with amount 0 and risk score 0.5 on a fresh manager is approved. -/
theorem C3_hold_amended_witness :
    assess_risk RiskManager.fresh
      { action := "HOLD", asset := "BTC", amount := 0, price := 100,
        confidence := 1, reasoning := "", risk_score := 1/2 } [] = true :=
  C3_hold_amended RiskManager.fresh
    { action := "HOLD", asset := "BTC", amount := 0, price := 100,
      confidence := 1, reasoning := "", risk_score := 1/2 } []
    rfl
    (by norm_num +decide [calculate_position_limit, volatility_adjustment,
          drawdown_adjustment, get_asset_volatility, RiskManager.fresh])
    (by norm_num [RiskManager.fresh])
    (by norm_num)

/-- C8: stop-loss/take-profit derivation.  In general the derived prices
are LONG stop `entry*(1 - pct/100)`, LONG target `entry*(1 + pct/100)`,
mirrored for SHORT; and opening on a signal that carries no such prices at
entry 50000 with stop-loss 2 % / take-profit 5 % yields LONG stop 49000 and
target 52500, SHORT stop 51000 and target 47500. -/
theorem C8_stop_take_profit_derivation :
    (∀ (params : StrategyParameters) (entry : ℚ),
      calculate_stop_loss_price params entry "LONG" =
          entry * (1 - params.stop_loss_pct / 100) ∧
      calculate_stop_loss_price params entry "SHORT" =
          entry * (1 + params.stop_loss_pct / 100) ∧
      calculate_take_profit_price params entry "LONG" =
          entry * (1 + params.take_profit_pct / 100) ∧
      calculate_take_profit_price params entry "SHORT" =
          entry * (1 - params.take_profit_pct / 100)) ∧
    dict_lookup "BTC" (open_position buyC8 stC8).positions =
      some { asset := "BTC", side := "LONG", entry_price := 50000,
             amount := 100, stop_loss_price := some 49000,
             take_profit_price := some 52500 } ∧
    dict_lookup "ETH" (open_position sellC8 stC8).positions =
      some { asset := "ETH", side := "SHORT", entry_price := 50000,
             amount := 100, stop_loss_price := some 51000,
             take_profit_price := some 47500 } := by
  refine ⟨fun params entry => ⟨rfl, rfl, rfl, rfl⟩, ?_, ?_⟩
  · norm_num +decide [open_position, buyC8, stC8, init_strategy, test_params,
      truthy, calculate_stop_loss_price, calculate_take_profit_price,
      dict_insert, dict_lookup]
  · norm_num +decide [open_position, sellC8, stC8, init_strategy, test_params,
      truthy, calculate_stop_loss_price, calculate_take_profit_price,
      dict_insert, dict_lookup]

/-- C9: `update_balance` keeps `peak_balance` as the running maximum of the
balances reported, and whenever the updated peak is positive it sets
`current_drawdown = (peak - balance) / peak`; the fresh-manager update
sequence 10000, 12000, 10800 yields drawdowns 0, 0 and 1/10. -/
theorem C9_update_balance_spec :
    ∀ (rm : RiskManager) (b : ℚ), 0 < max rm.peak_balance b →
      ((update_balance rm b).current_balance = b ∧
       (update_balance rm b).peak_balance = max rm.peak_balance b ∧
       (update_balance rm b).current_drawdown =
         (max rm.peak_balance b - b) / max rm.peak_balance b) ∧
      ((update_balance RiskManager.fresh 10000).current_drawdown = 0 ∧
       (update_balance (update_balance RiskManager.fresh 10000) 12000).current_drawdown = 0 ∧
       (update_balance (update_balance (update_balance RiskManager.fresh 10000) 12000)
          10800).current_drawdown = 1/10) := by
  intro rm b hpos
  constructor
  · unfold update_balance
    by_cases hgt : b > rm.peak_balance
    · rw [max_eq_right (le_of_lt hgt)] at hpos ⊢
      simp only [hgt, if_pos, if_true]
      rw [if_pos hpos]
      exact ⟨rfl, rfl, rfl⟩
    · rw [max_eq_left (not_lt.mp hgt)] at hpos ⊢
      simp only [hgt, if_false, if_neg]
      rw [if_pos hpos]
      simp
  · norm_num [update_balance, RiskManager.fresh]

/-- C9 witness: the theorem applied at the fresh manager and balance 10000
(whose updated peak is positive). -/
theorem C9_update_balance_spec_witness :
    ((update_balance RiskManager.fresh 10000).current_balance = 10000 ∧
     (update_balance RiskManager.fresh 10000).peak_balance =
       max RiskManager.fresh.peak_balance 10000 ∧
     (update_balance RiskManager.fresh 10000).current_drawdown =
       (max RiskManager.fresh.peak_balance 10000 - 10000) /
         max RiskManager.fresh.peak_balance 10000) ∧
    ((update_balance RiskManager.fresh 10000).current_drawdown = 0 ∧
     (update_balance (update_balance RiskManager.fresh 10000) 12000).current_drawdown = 0 ∧
     (update_balance (update_balance (update_balance RiskManager.fresh 10000) 12000)
        10800).current_drawdown = 1/10) :=
  C9_update_balance_spec RiskManager.fresh 10000
    (by norm_num [RiskManager.fresh])

/-- C7: for a fixed asset, the position limit is monotonically
non-increasing in the current drawdown: for 0 ≤ d₁ < d₂ the limit computed
at drawdown d₂ is at most the limit computed at drawdown d₁. -/
theorem C7_position_limit_monotone :
    ∀ (rm : RiskManager) (asset : String) (d1 d2 : ℚ),
      0 ≤ d1 → d1 < d2 →
      calculate_position_limit { rm with current_drawdown := d2 } asset ≤
        calculate_position_limit { rm with current_drawdown := d1 } asset := by
  intro rm asset d1 d2 _h0 hlt
  unfold calculate_position_limit
  have hvol : (0:ℚ) ≤ volatility_adjustment asset :=
    le_trans (by norm_num) (le_max_left (1/10) _)
  have hbase : (0:ℚ) ≤ 10000 * volatility_adjustment asset :=
    mul_nonneg (by norm_num) hvol
  refine mul_le_mul_of_nonneg_left ?_ hbase
  unfold drawdown_adjustment
  exact max_le_max le_rfl (by linarith)

/-- C7 witness: the monotonicity theorem applied to BTC on a fresh manager
at drawdowns 0 < 1/10. -/
theorem C7_position_limit_monotone_witness :
    calculate_position_limit { RiskManager.fresh with current_drawdown := 1/10 } "BTC" ≤
      calculate_position_limit { RiskManager.fresh with current_drawdown := 0 } "BTC" :=
  C7_position_limit_monotone RiskManager.fresh "BTC" 0 (1/10)
    (by norm_num) (by norm_num)

/-- C10: for every asset and every manager state with nonnegative drawdown,
the volatility adjustment lies in [0.1, 0.98] (every table volatility,
including the 0.30 default, is at least 0.01), the drawdown adjustment lies
in [0.5, 1], and the position limit lies in [500, 10000]. -/
theorem C10_position_limit_bounds :
    ∀ (rm : RiskManager) (asset : String),
      0 ≤ rm.current_drawdown →
      (1/10 ≤ volatility_adjustment asset ∧
       volatility_adjustment asset ≤ 98/100) ∧
      (1/2 ≤ drawdown_adjustment rm.current_drawdown ∧
       drawdown_adjustment rm.current_drawdown ≤ 1) ∧
      (500 ≤ calculate_position_limit rm asset ∧
       calculate_position_limit rm asset ≤ 10000) := by
  intro rm asset h0
  have hvmin : (1/100 : ℚ) ≤ get_asset_volatility asset := by
    unfold get_asset_volatility
    split_ifs <;> norm_num
  have hva : 1/10 ≤ volatility_adjustment asset ∧
      volatility_adjustment asset ≤ 98/100 := by
    constructor
    · exact le_max_left (1/10) _
    · exact max_le (by norm_num) (by linarith)
  have hda : 1/2 ≤ drawdown_adjustment rm.current_drawdown ∧
      drawdown_adjustment rm.current_drawdown ≤ 1 := by
    constructor
    · exact le_max_left (1/2) _
    · exact max_le (by norm_num) (by linarith)
  refine ⟨hva, hda, ?_, ?_⟩
  · unfold calculate_position_limit
    nlinarith [hva.1, hva.2, hda.1, hda.2]
  · unfold calculate_position_limit
    nlinarith [hva.1, hva.2, hda.1, hda.2]

/-- C10 witness: the bounds theorem applied to BTC on a fresh manager
(drawdown 0). -/
theorem C10_position_limit_bounds_witness :
    (1/10 ≤ volatility_adjustment "BTC" ∧
     volatility_adjustment "BTC" ≤ 98/100) ∧
    (1/2 ≤ drawdown_adjustment RiskManager.fresh.current_drawdown ∧
     drawdown_adjustment RiskManager.fresh.current_drawdown ≤ 1) ∧
    (500 ≤ calculate_position_limit RiskManager.fresh "BTC" ∧
     calculate_position_limit RiskManager.fresh "BTC" ≤ 10000) :=
  C10_position_limit_bounds RiskManager.fresh "BTC"
    (by norm_num [RiskManager.fresh])

/-- The source's fourth check holds exactly when the asset has an open
position whose side is the one the signal implies. -/
theorem same_direction_blocked_iff (signal : TradeSignal)
    (ps : List (String × Position)) :
    same_direction_blocked signal ps = true ↔
      ∃ p, dict_lookup signal.asset ps = some p ∧
           spec_implied_side signal.action = some p.side := by
  unfold same_direction_blocked spec_implied_side
  cases h : dict_lookup signal.asset ps with
  | none => simp
  | some p =>
    simp only [h, Option.some.injEq, Bool.and_eq_true, Bool.or_eq_true,
      beq_iff_eq]
    by_cases hb : signal.action = "BUY"
    · simp [hb, eq_comm]
    · by_cases hs : signal.action = "SELL"
      · simp [hb, hs, eq_comm]
      · simp [hb, hs]

/-- C2 (counterexample): the claimed iff fails at the position cap — a
closing BUY against the open SHORT in `A0`, with ten positions open, is
rejected by `assess_risk` although none of the claim's five conditions
holds (in particular it would not open a new position). -/
theorem C2_counterexample :
    assess_risk RiskManager.fresh sigC2 psC2 = false ∧
    ¬ claimed_reject RiskManager.fresh sigC2 psC2 := by
  constructor
  · norm_num +decide [assess_risk, sigC2, psC2, short_position,
      RiskManager.fresh, calculate_position_limit, volatility_adjustment,
      drawdown_adjustment, get_asset_volatility, same_direction_blocked,
      dict_lookup]
  · norm_num +decide [claimed_reject, sigC2, psC2, short_position,
      RiskManager.fresh, calculate_position_limit, volatility_adjustment,
      drawdown_adjustment, get_asset_volatility, spec_implied_side,
      dict_lookup]

/-- C2 (amended): `assess_risk` returns false exactly when the claim's
disjunction holds, with the fifth condition amended to fire for every
BUY/SELL signal once ten positions are open — including a closing signal
that would not open a new position. -/
theorem C2_assess_risk_iff :
    ∀ (rm : RiskManager) (signal : TradeSignal) (ps : List (String × Position)),
      assess_risk rm signal ps = false ↔ claimed_reject_amended rm signal ps := by
  intro rm signal ps
  unfold assess_risk claimed_reject_amended
  split_ifs with h1 h2 h3 h4 h5
  · exact iff_of_true rfl (Or.inl h1)
  · exact iff_of_true rfl (Or.inr (Or.inl h2))
  · exact iff_of_true rfl (Or.inr (Or.inr (Or.inl h3)))
  · exact iff_of_true rfl
      (Or.inr (Or.inr (Or.inr (Or.inl ((same_direction_blocked_iff signal ps).mp h4)))))
  · refine iff_of_true rfl (Or.inr (Or.inr (Or.inr (Or.inr ?_))))
    simpa only [Bool.and_eq_true, decide_eq_true_eq, Bool.or_eq_true,
      beq_iff_eq] using h5
  · refine iff_of_false (by simp) ?_
    intro h
    rcases h with h | h | h | h | h
    · exact h1 h
    · exact h2 h
    · exact h3 h
    · exact h4 ((same_direction_blocked_iff signal ps).mpr h)
    · exact h5 (by
        simp only [Bool.and_eq_true, decide_eq_true_eq, Bool.or_eq_true,
          beq_iff_eq]
        exact h)

end StrategyExecution
